import Mathlib

/-!
Verification of the escpos command-encoder library (github.com/schawnndev/escpos).

The repository carries two historical snapshots of the encoder module.
The older snapshot is the file src/main.go (fluent style setters; Write re-emits
every style frame before the text).  The later snapshot (the one the test file
main_test.go compiles against) replaces the fluent setters by Set-prefixed
setters that honour the feature-disable configuration, and fixes the
paper-status masks.  Both snapshots are embedded below: namespace V1 holds the
older snapshot, namespace V2 the later one.  Functions that are byte-identical
in the two snapshots (SetSize, Barcode, QRCode, QueryStatus) are embedded once,
under V1.

Machine integers: Go uint8/byte values are modelled as Nat; every arithmetic
spot where Go wraps at 256 carries an explicit % 256.  Strings are modelled as
their byte sequences (List Nat); Go len() is List.length.  The output sink
(bufio.Writer over the transport) is modelled as a pure byte buffer that never
fails, so the only errors are the validation errors of the encoder itself;
results of type (int, error) become Except String Nat.
-/

/-- Command lead byte ESC (0x1B). -/
def esc : Nat := 0x1B

/-- Command lead byte GS (0x1D). -/
def gs : Nat := 0x1D

/-- Command lead byte FS (0x1C). -/
def fs : Nat := 0x1C

/-- Command lead byte DLE (0x10), used for real-time commands. -/
def dle : Nat := 0x10

/-- Style from main.go: current text formatting options. -/
structure Style where
  Bold : Bool
  Width : Nat
  Height : Nat
  Reverse : Bool
  Underline : Nat
  UpsideDown : Bool
  Rotate : Bool
  Justify : Nat
deriving Repr, DecidableEq

/-- PrinterConfig from main.go: feature-disable flags. -/
structure PrinterConfig where
  DisableUnderline : Bool
  DisableBold : Bool
  DisableReverse : Bool
  DisableRotate : Bool
  DisableUpsideDown : Bool
  DisableJustify : Bool
deriving Repr, DecidableEq

/-- The Escpos session: queued output bytes, current style, configuration. -/
structure Escpos where
  buf : List Nat
  Style : Style
  config : PrinterConfig
deriving Repr, DecidableEq

/-- boolToByte from main.go. -/
def boolToByte (b : Bool) : Nat := if b then 1 else 0

/-- WriteRaw from main.go: queue raw bytes, report the byte count.
With a non-failing sink bufio.Writer.Write returns (len(data), nil);
the empty-input branch returns (0, nil) without touching the buffer. -/
def WriteRaw (data : List Nat) (e : Escpos) : Escpos × Except String Nat :=
  if 0 < data.length then
    ({ e with buf := e.buf ++ data }, Except.ok data.length)
  else
    (e, Except.ok 0)

namespace V1

/-- DefaultStyle from src/main.go: reset the style to default values. -/
def DefaultStyle (e : Escpos) : Escpos :=
  { e with Style :=
      { Bold := false, Width := 1, Height := 1, Reverse := false,
        Underline := 0, UpsideDown := false, Rotate := false, Justify := 0 } }

/-- New from src/main.go: fresh session (zero-valued config) followed by
DefaultStyle. -/
def New : Escpos :=
  DefaultStyle
    { buf := [],
      Style := { Bold := false, Width := 0, Height := 0, Reverse := false,
                 Underline := 0, UpsideDown := false, Rotate := false, Justify := 0 },
      config := { DisableUnderline := false, DisableBold := false, DisableReverse := false,
                  DisableRotate := false, DisableUpsideDown := false, DisableJustify := false } }

/-- Fluent Bold setter from src/main.go. -/
def Bold (p : Bool) (e : Escpos) : Escpos :=
  { e with Style := { e.Style with Bold := p } }

/-- Fluent Underline setter from src/main.go: thickness above 2 is clamped to 2. -/
def Underline (p : Nat) (e : Escpos) : Escpos :=
  let p1 := if 2 < p then 2 else p
  { e with Style := { e.Style with Underline := p1 } }

/-- Fluent Reverse setter from src/main.go. -/
def Reverse (p : Bool) (e : Escpos) : Escpos :=
  { e with Style := { e.Style with Reverse := p } }

/-- Fluent Justify setter from src/main.go: values above JustifyRight reset to
JustifyLeft. -/
def Justify (p : Nat) (e : Escpos) : Escpos :=
  let p1 := if 2 < p then 0 else p
  { e with Style := { e.Style with Justify := p1 } }

/-- Fluent Rotate setter from src/main.go. -/
def Rotate (p : Bool) (e : Escpos) : Escpos :=
  { e with Style := { e.Style with Rotate := p } }

/-- Fluent UpsideDown setter from src/main.go. -/
def UpsideDown (p : Bool) (e : Escpos) : Escpos :=
  { e with Style := { e.Style with UpsideDown := p } }

/-- Size from src/main.go: clamp width and height into [1,8] and store them in
the style (no bytes queued). -/
def Size (width height : Nat) (e : Escpos) : Escpos :=
  let width1 := if width < 1 then 1 else if 8 < width then 8 else width
  let height1 := if height < 1 then 1 else if 8 < height then 8 else height
  { e with Style := { e.Style with Width := width1, Height := height1 } }

/-- SetSize from main.go (identical in both snapshots): clamp height and width
into [1,8], compute sizeByte = (2 shl 3)*(width-1) + (height-1), store the
clamped values in the style and queue the frame GS plus the size opcode plus
sizeByte. -/
def SetSize (height width : Nat) (e : Escpos) : Escpos × Except String Nat :=
  let width1 := if width < 1 then 1 else if 8 < width then 8 else width
  let height1 := if height < 1 then 1 else if 8 < height then 8 else height
  let sizeByte := (2 <<< 3) * (width1 - 1) + (height1 - 1)
  WriteRaw [gs, 33, sizeByte]
    { e with Style := { e.Style with Height := height1, Width := width1 } }

/-- SetAlign from src/main.go: out-of-range justification resets to left, the
style is updated and the frame ESC 97 j is queued. -/
def SetAlign (j : Nat) (e : Escpos) : Escpos × Except String Nat :=
  let j1 := if 2 < j then 0 else j
  WriteRaw [esc, 97, j1] { e with Style := { e.Style with Justify := j1 } }

/-- SetFont from src/main.go: fonts other than A and B reset to A. -/
def SetFont (f : Nat) (e : Escpos) : Escpos × Except String Nat :=
  let f1 := if 1 < f then 0 else f
  WriteRaw [esc, 77, f1] e

/-- SetBold from src/main.go (older snapshot: no configuration check). -/
def SetBold (b : Bool) (e : Escpos) : Escpos × Except String Nat :=
  WriteRaw [esc, 69, boolToByte b] e

/-- Cut from main.go. -/
def Cut (e : Escpos) : Escpos × Except String Nat :=
  WriteRaw [gs, 86, 65, 0] e

/-- LineFeedN from main.go. -/
def LineFeedN (p : Nat) (e : Escpos) : Escpos × Except String Nat :=
  WriteRaw [esc, 100, p] e

/-- Write from src/main.go: per enabled feature one style frame (bold,
underline, reverse, rotate, upside-down, justify, in that order), then the
size frame via SetSize on the current style, then the text bytes.  The shared
sink never fails, so the error branches of the Go code are never taken. -/
def Write (data : List Nat) (e : Escpos) : Escpos × Except String Nat :=
  let s1 := if e.config.DisableBold then e
            else (WriteRaw [esc, 69, boolToByte e.Style.Bold] e).1
  let s2 := if s1.config.DisableUnderline then s1
            else (WriteRaw [esc, 45, s1.Style.Underline] s1).1
  let s3 := if s2.config.DisableReverse then s2
            else (WriteRaw [gs, 66, boolToByte s2.Style.Reverse] s2).1
  let s4 := if s3.config.DisableRotate then s3
            else (WriteRaw [esc, 86, boolToByte s3.Style.Rotate] s3).1
  let s5 := if s4.config.DisableUpsideDown then s4
            else (WriteRaw [esc, 123, boolToByte s4.Style.UpsideDown] s4).1
  let s6 := if s5.config.DisableJustify then s5
            else (WriteRaw [esc, 97, s5.Style.Justify] s5).1
  let s7 := (SetSize s6.Style.Height s6.Style.Width s6).1
  WriteRaw data s7

/-- onlyDigits from src/main.go: every rune is an ASCII digit.  On byte
sequences this is exactly: every byte lies in [48,57]. -/
def onlyDigits (s : List Nat) : Bool :=
  s.all (fun c => !(decide (c < 48) || decide (57 < c)))

/-- Barcode from main.go (identical in both snapshots for every type whose
validation matters here): validate type, then per-type length and charset
rules in the order of the Go switch, then queue GS 107 type, the payload and
a terminating 0. -/
def Barcode (barcodeType : Nat) (code : List Nat) (e : Escpos) : Escpos × Except String Nat :=
  if 6 < barcodeType then
    (e, Except.error "invalid barcode type")
  else if (barcodeType = 0 ∨ barcodeType = 1) ∧ code.length ≠ 11 ∧ code.length ≠ 12 then
    (e, Except.error "UPC code should have 11 or 12 digits")
  else if (barcodeType = 0 ∨ barcodeType = 1) ∧ onlyDigits code = false then
    (e, Except.error "UPC code can only contain digits")
  else if barcodeType = 2 ∧ code.length ≠ 12 ∧ code.length ≠ 13 then
    (e, Except.error "EAN-13 code should have 12 or 13 digits")
  else if barcodeType = 2 ∧ onlyDigits code = false then
    (e, Except.error "EAN-13 code can only contain digits")
  else if barcodeType = 3 ∧ code.length ≠ 7 ∧ code.length ≠ 8 then
    (e, Except.error "EAN-8 code should have 7 or 8 digits")
  else if barcodeType = 3 ∧ onlyDigits code = false then
    (e, Except.error "EAN-8 code can only contain digits")
  else if barcodeType = 5 ∧ (code.length < 2 ∨ code.length % 2 ≠ 0) then
    (e, Except.error "ITF code must have an even number of digits (at least 2)")
  else if barcodeType = 5 ∧ onlyDigits code = false then
    (e, Except.error "ITF code can only contain digits")
  else
    WriteRaw ([gs, 107, barcodeType] ++ (code ++ [0])) e

/-- QRCode from main.go (identical in both snapshots): length ceiling check
(1167 for model 1, 7089 otherwise), clamp of the module size into [1,16],
correction level defaulting to 48 when outside [48,51], model defaulting to
50 when neither 49 nor 50, then the five frames: select model, select module
size, select correction level, store data (with the little-endian two-byte
length field len+3), print.  The returned count is the one of the store-data
write, as in the Go code. -/
def QRCode (code : List Nat) (model size correctionLevel : Nat) (e : Escpos) :
    Escpos × Except String Nat :=
  let maxLength := if model = 49 then 1167 else 7089
  if maxLength < code.length then
    (e, Except.error "QR code data too long")
  else
    let size1 := if size < 1 then 1 else if 16 < size then 16 else size
    let cl1 := if correctionLevel < 48 ∨ 51 < correctionLevel then 48 else correctionLevel
    let model1 := if model ≠ 49 ∧ model ≠ 50 then 50 else model
    let e1 := (WriteRaw [gs, 40, 107, 4, 0, 49, 65, model1, 0] e).1
    let e2 := (WriteRaw [gs, 40, 107, 3, 0, 49, 67, size1] e1).1
    let e3 := (WriteRaw [gs, 40, 107, 3, 0, 49, 69, cl1] e2).1
    let codeLength := code.length + 3
    let pH := (codeLength / 256) % 256
    let pL := codeLength % 256
    let p4 := WriteRaw ([gs, 40, 107, pL, pH, 49, 80, 48] ++ code) e3
    let e5 := (WriteRaw [gs, 40, 107, 3, 0, 49, 81, 48] p4.1).1
    (e5, p4.2)

end V1

/-- Outcome of the single one-byte read QueryStatus performs on the
transport: a read error, zero bytes without error, or one status byte. -/
inductive ReadResult where
  | failure (msg : String)
  | empty
  | byte (b : Nat)
deriving Repr, DecidableEq

/-- QueryStatus from main.go (identical in both snapshots): queue and flush
the real-time request DLE 0x04 type, then read at most one byte; a read error
propagates, zero bytes yield an empty result and no error, otherwise the one
byte read is returned.  The settling delay is real time and not modelled. -/
def QueryStatus (statusType : Nat) (r : ReadResult) (e : Escpos) :
    Escpos × Except String (List Nat) :=
  let e1 := (WriteRaw [dle, 0x04, statusType] e).1
  match r with
  | ReadResult.failure msg => (e1, Except.error ("failed to read status response: " ++ msg))
  | ReadResult.empty => (e1, Except.ok [])
  | ReadResult.byte b => (e1, Except.ok [b])

namespace V2

/-- SetBold from the later snapshot: fails when bold is disabled, otherwise
queues ESC 69 b. -/
def SetBold (b : Bool) (e : Escpos) : Escpos × Except String Nat :=
  if e.config.DisableBold then
    (e, Except.error "bold mode is disabled in the printer configuration")
  else
    WriteRaw [esc, 69, boolToByte b] e

/-- SetUnderline from the later snapshot: fails when underline is disabled;
values above 2 reset to 0; queues ESC 45 u. -/
def SetUnderline (u : Nat) (e : Escpos) : Escpos × Except String Nat :=
  if e.config.DisableUnderline then
    (e, Except.error "underline mode is disabled in the printer configuration")
  else
    let u1 := if 2 < u then 0 else u
    WriteRaw [esc, 45, u1] e

/-- SetJustify from the later snapshot: fails when justification is disabled;
values above JustifyRight reset to left; updates the style and queues
ESC 97 j. -/
def SetJustify (j : Nat) (e : Escpos) : Escpos × Except String Nat :=
  if e.config.DisableJustify then
    (e, Except.error "justification is disabled in the printer configuration")
  else
    let j1 := if 2 < j then 0 else j
    WriteRaw [esc, 97, j1] { e with Style := { e.Style with Justify := j1 } }

/-- SetUpsideDown from the later snapshot. -/
def SetUpsideDown (u : Bool) (e : Escpos) : Escpos × Except String Nat :=
  if e.config.DisableUpsideDown then
    (e, Except.error "upside-down mode is disabled in the printer configuration")
  else
    WriteRaw [esc, 123, boolToByte u] e

/-- SetRotate from the later snapshot. -/
def SetRotate (r : Bool) (e : Escpos) : Escpos × Except String Nat :=
  if e.config.DisableRotate then
    (e, Except.error "rotation mode is disabled in the printer configuration")
  else
    WriteRaw [esc, 86, boolToByte r] e

/-- SetReverse from the later snapshot. -/
def SetReverse (r : Bool) (e : Escpos) : Escpos × Except String Nat :=
  if e.config.DisableReverse then
    (e, Except.error "reverse mode is disabled in the printer configuration")
  else
    WriteRaw [gs, 66, boolToByte r] e

/-- PaperStatus from the later snapshot: query DLE EOT 4; on a read error Go
returns (2, err), on no response (2, nil); otherwise the end sensor
(mask 0x60, bits 5 and 6) is checked first, then the near-end sensor
(mask 0x0C, bits 2 and 3), otherwise the paper is adequate.  The Go pair
(int, error) is modelled as Nat times Option String. -/
def PaperStatus (r : ReadResult) (e : Escpos) : Escpos × Nat × Option String :=
  match QueryStatus 4 r e with
  | (e1, Except.error msg) => (e1, 2, some msg)
  | (e1, Except.ok status) =>
    match status with
    | [] => (e1, 2, none)
    | b :: _ =>
      if b &&& 0x60 = 0x60 then (e1, 0, none)
      else if b &&& 0x0C = 0x0C then (e1, 1, none)
      else (e1, 2, none)

/-- IsOnline from the later snapshot: query DLE EOT 1; no response means
offline; otherwise the printer is online exactly when bit 3 of the status
byte is clear. -/
def IsOnline (r : ReadResult) (e : Escpos) : Escpos × Bool × Option String :=
  match QueryStatus 1 r e with
  | (e1, Except.error msg) => (e1, false, some msg)
  | (e1, Except.ok status) =>
    match status with
    | [] => (e1, false, none)
    | b :: _ =>
      if b &&& 0x08 = 0x08 then (e1, false, none) else (e1, true, none)

end V2

/-- A session whose configuration disables every feature, for the C6 witness. -/
def allDisabled : Escpos :=
  { buf := [],
    Style := { Bold := false, Width := 1, Height := 1, Reverse := false,
               Underline := 0, UpsideDown := false, Rotate := false, Justify := 0 },
    config := { DisableUnderline := true, DisableBold := true, DisableReverse := true,
                DisableRotate := true, DisableUpsideDown := true, DisableJustify := true } }

/-- The operations of the older snapshot, for stating state invariants. -/
inductive Op where
  | bold (p : Bool)
  | underline (p : Nat)
  | reverse (p : Bool)
  | justify (p : Nat)
  | rotate (p : Bool)
  | upsideDown (p : Bool)
  | size (w h : Nat)
  | setSize (h w : Nat)
  | defaultStyle
  | setAlign (j : Nat)
  | setFont (f : Nat)
  | setBold (b : Bool)
  | cut
  | lineFeedN (n : Nat)
  | writeRaw (d : List Nat)
  | write (d : List Nat)
  | barcode (t : Nat) (c : List Nat)
  | qrcode (c : List Nat) (m s cl : Nat)
deriving Repr, DecidableEq

/-- Interpreter of the older snapshot operations on the session state. -/
def applyOp : Op → Escpos → Escpos
  | Op.bold p, e => V1.Bold p e
  | Op.underline p, e => V1.Underline p e
  | Op.reverse p, e => V1.Reverse p e
  | Op.justify p, e => V1.Justify p e
  | Op.rotate p, e => V1.Rotate p e
  | Op.upsideDown p, e => V1.UpsideDown p e
  | Op.size w h, e => V1.Size w h e
  | Op.setSize h w, e => (V1.SetSize h w e).1
  | Op.defaultStyle, e => V1.DefaultStyle e
  | Op.setAlign j, e => (V1.SetAlign j e).1
  | Op.setFont f, e => (V1.SetFont f e).1
  | Op.setBold b, e => (V1.SetBold b e).1
  | Op.cut, e => (V1.Cut e).1
  | Op.lineFeedN n, e => (V1.LineFeedN n e).1
  | Op.writeRaw d, e => (WriteRaw d e).1
  | Op.write d, e => (V1.Write d e).1
  | Op.barcode t c, e => (V1.Barcode t c e).1
  | Op.qrcode c m s cl, e => (V1.QRCode c m s cl e).1

/-- Sequential application of operations, starting from a given session. -/
def applyOps (l : List Op) (e : Escpos) : Escpos :=
  l.foldl (fun s op => applyOp op s) e

/-- The size fields of the style are in the legal range [1,8]. -/
def sizeInv (e : Escpos) : Prop :=
  1 ≤ e.Style.Width ∧ e.Style.Width ≤ 8 ∧ 1 ≤ e.Style.Height ∧ e.Style.Height ≤ 8

instance (e : Escpos) : Decidable (sizeInv e) := by
  unfold sizeInv
  exact inferInstance

/-- The operations that are allowed to change the size fields: Size, SetSize
and DefaultStyle. -/
def touchesSize : Op → Bool
  | Op.size _ _ => true
  | Op.setSize _ _ => true
  | Op.defaultStyle => true
  | _ => false

namespace V1

/-- PaperStatus from the older snapshot src/main.go, whose masks are
RT_MASK_NOPAPER = 0x03, RT_MASK_LOWPAPER = 0x02, RT_MASK_PAPER = 0x03, with a
fall-through return of 0.  This variant disagrees with TestPaperStatus of
main_test.go; the later snapshot (V2.PaperStatus) is the one the test file
compiles against. -/
def PaperStatus (r : ReadResult) (e : Escpos) : Escpos × Nat × Option String :=
  match QueryStatus 4 r e with
  | (e1, Except.error msg) => (e1, 2, some msg)
  | (e1, Except.ok status) =>
    match status with
    | [] => (e1, 2, none)
    | b :: _ =>
      if b &&& 0x03 = 0x03 then (e1, 0, none)
      else if b &&& 0x02 = 0x02 then (e1, 1, none)
      else if b &&& 0x03 = 0x03 then (e1, 2, none)
      else (e1, 0, none)

end V1

/-- The if-chain clamp of main.go equals the nearest-bound clamp into [1,8]. -/
theorem clamp18_eq (x : Nat) :
    (if x < 1 then 1 else if 8 < x then 8 else x) = max 1 (min 8 x) := by
  by_cases h1 : x < 1 <;> by_cases h2 : 8 < x <;> simp [h1, h2] <;> omega

/-- Variant of the clamp identity in the shape produced by simp (x = 0 for
x < 1 on Nat). -/
theorem clamp18_eq0 (x : Nat) :
    (if x = 0 then 1 else if 8 < x then 8 else x) = max 1 (min 8 x) := by
  by_cases h1 : x = 0 <;> by_cases h2 : 8 < x <;> simp [h1, h2] <;> omega

/-- WriteRaw always queues its bytes and reports their count; the empty-input
branch coincides with this description. -/
theorem WriteRaw_eq (data : List Nat) (e : Escpos) :
    WriteRaw data e = ({ e with buf := e.buf ++ data }, Except.ok data.length) := by
  unfold WriteRaw
  rcases data with _ | ⟨a, l⟩ <;> simp

/-- C1: SetSize clamps width and height independently into [1,8], queues
exactly the 3-byte frame GS, 33, c with c = (2 shl 3)*(clampedWidth-1) +
(clampedHeight-1), and never returns a validation error. -/
theorem SetSize_clamps_and_frames (h w : Nat) (e : Escpos) :
    1 ≤ max 1 (min 8 w) ∧ max 1 (min 8 w) ≤ 8 ∧
    1 ≤ max 1 (min 8 h) ∧ max 1 (min 8 h) ≤ 8 ∧
    V1.SetSize h w e =
      ({ e with
          buf := e.buf ++
            [gs, 33, (2 <<< 3) * (max 1 (min 8 w) - 1) + (max 1 (min 8 h) - 1)],
          Style := { e.Style with Height := max 1 (min 8 h), Width := max 1 (min 8 w) } },
       Except.ok 3) := by
  refine ⟨by omega, by omega, by omega, by omega, ?_⟩
  unfold V1.SetSize
  simp only [clamp18_eq, WriteRaw_eq]
  rfl

/-- C5: with underline enabled, every thickness value above 2 is reset to 0
(not clamped to 2) and the queued frame is ESC, 45, 0. -/
theorem SetUnderline_invalid_resets_to_none (u : Nat) (e : Escpos)
    (hconf : e.config.DisableUnderline = false) (hu : 2 < u) :
    V2.SetUnderline u e = ({ e with buf := e.buf ++ [esc, 45, 0] }, Except.ok 3) := by
  unfold V2.SetUnderline
  simp [hconf, hu, WriteRaw_eq]

/-- Witness for C5 at u = 3 on a fresh session. -/
theorem SetUnderline_invalid_resets_to_none_witness :
    V2.SetUnderline 3 V1.New = ({ V1.New with buf := [esc, 45, 0] }, Except.ok 3) := by
  simpa using SetUnderline_invalid_resets_to_none 3 V1.New rfl (by decide)

/-- C6: with a feature disabled in the configuration, the corresponding
Set-prefixed setter fails with an error naming the feature and leaves the
session (in particular the queued bytes) unchanged; this holds for bold,
justify, underline, reverse, rotate and upside-down. -/
theorem disabled_feature_setters_fail (e : Escpos) (r ro ud : Bool) (u j : Nat) :
    (e.config.DisableBold = true →
      V2.SetBold true e =
        (e, Except.error "bold mode is disabled in the printer configuration")) ∧
    (∃ p q, ("bold mode is disabled in the printer configuration").toList
        = p ++ ("bold").toList ++ q) ∧
    (e.config.DisableJustify = true →
      V2.SetJustify j e =
        (e, Except.error "justification is disabled in the printer configuration")) ∧
    (e.config.DisableUnderline = true →
      V2.SetUnderline u e =
        (e, Except.error "underline mode is disabled in the printer configuration")) ∧
    (e.config.DisableReverse = true →
      V2.SetReverse r e =
        (e, Except.error "reverse mode is disabled in the printer configuration")) ∧
    (e.config.DisableRotate = true →
      V2.SetRotate ro e =
        (e, Except.error "rotation mode is disabled in the printer configuration")) ∧
    (e.config.DisableUpsideDown = true →
      V2.SetUpsideDown ud e =
        (e, Except.error "upside-down mode is disabled in the printer configuration")) := by
  refine ⟨?_, ⟨[], (" mode is disabled in the printer configuration").toList, by decide⟩,
    ?_, ?_, ?_, ?_, ?_⟩ <;>
    intro hd <;>
    simp [V2.SetBold, V2.SetJustify, V2.SetUnderline, V2.SetReverse, V2.SetRotate,
      V2.SetUpsideDown, hd]


/-- Witness for C6: on a session with every feature disabled, each setter
fails with its feature-naming message and queues nothing. -/
theorem disabled_feature_setters_fail_witness :
    V2.SetBold true allDisabled =
      (allDisabled, Except.error "bold mode is disabled in the printer configuration") ∧
    V2.SetJustify 1 allDisabled =
      (allDisabled, Except.error "justification is disabled in the printer configuration") ∧
    V2.SetUnderline 1 allDisabled =
      (allDisabled, Except.error "underline mode is disabled in the printer configuration") ∧
    V2.SetReverse true allDisabled =
      (allDisabled, Except.error "reverse mode is disabled in the printer configuration") ∧
    V2.SetRotate true allDisabled =
      (allDisabled, Except.error "rotation mode is disabled in the printer configuration") ∧
    V2.SetUpsideDown true allDisabled =
      (allDisabled, Except.error "upside-down mode is disabled in the printer configuration") := by
  have h := disabled_feature_setters_fail allDisabled true true true 1 1
  exact ⟨h.1 rfl, h.2.2.1 rfl, h.2.2.2.1 rfl, h.2.2.2.2.1 rfl,
    h.2.2.2.2.2.1 rfl, h.2.2.2.2.2.2 rfl⟩

/-- C8: when the transport read yields zero bytes and no error, QueryStatus
returns an empty result and no error, PaperStatus reports 2 (adequate) with
no error, and IsOnline reports false with no error. -/
theorem empty_read_yields_defaults (e : Escpos) (t : Nat) :
    (QueryStatus t ReadResult.empty e).2 = Except.ok [] ∧
    (V2.PaperStatus ReadResult.empty e).2 = (2, none) ∧
    (V2.IsOnline ReadResult.empty e).2 = (false, none) :=
  ⟨rfl, rfl, rfl⟩

/-- onlyDigits holds exactly when every byte is an ASCII digit. -/
theorem onlyDigits_iff (code : List Nat) :
    V1.onlyDigits code = true ↔ ∀ c ∈ code, 48 ≤ c ∧ c ≤ 57 := by
  unfold V1.onlyDigits
  rw [List.all_eq_true]
  constructor
  · intro h c hc
    have h2 := h c hc
    simp only [Bool.not_eq_true', Bool.or_eq_false_iff, decide_eq_false_iff_not,
      Nat.not_lt] at h2
    exact ⟨h2.1, h2.2⟩
  · intro h c hc
    have h2 := h c hc
    simp only [Bool.not_eq_true', Bool.or_eq_false_iff, decide_eq_false_iff_not,
      Nat.not_lt]
    exact ⟨h2.1, h2.2⟩

/-- C2: Barcode with the EAN-13 type succeeds exactly when the payload has 12
or 13 bytes, all ASCII digits; on success it queues GS, 107, 2, the payload
and a terminating 0; a correct-length payload with a non-digit fails with the
charset error and a wrong-length payload fails with the length error, both
leaving the session unchanged. -/
theorem Barcode_ean13_spec (code : List Nat) (e : Escpos) :
    ((code.length = 12 ∨ code.length = 13) → (∀ c ∈ code, 48 ≤ c ∧ c ≤ 57) →
      V1.Barcode 2 code e =
        ({ e with buf := e.buf ++ [gs, 107, 2] ++ code ++ [0] },
         Except.ok (code.length + 4))) ∧
    ((code.length = 12 ∨ code.length = 13) → ¬(∀ c ∈ code, 48 ≤ c ∧ c ≤ 57) →
      V1.Barcode 2 code e = (e, Except.error "EAN-13 code can only contain digits")) ∧
    (code.length ≠ 12 → code.length ≠ 13 →
      V1.Barcode 2 code e = (e, Except.error "EAN-13 code should have 12 or 13 digits")) ∧
    ((∃ e2 n, V1.Barcode 2 code e = (e2, Except.ok n)) ↔
      (code.length = 12 ∨ code.length = 13) ∧ ∀ c ∈ code, 48 ≤ c ∧ c ≤ 57) := by
  have hok : (code.length = 12 ∨ code.length = 13) → (∀ c ∈ code, 48 ≤ c ∧ c ≤ 57) →
      V1.Barcode 2 code e =
        ({ e with buf := e.buf ++ [gs, 107, 2] ++ code ++ [0] },
         Except.ok (code.length + 4)) := by
    intro hl hd
    have hot : V1.onlyDigits code = true := (onlyDigits_iff code).mpr hd
    rcases hl with h | h <;>
      simp [V1.Barcode, hot, h, WriteRaw_eq, List.append_assoc]
  have hchar : (code.length = 12 ∨ code.length = 13) → ¬(∀ c ∈ code, 48 ≤ c ∧ c ≤ 57) →
      V1.Barcode 2 code e = (e, Except.error "EAN-13 code can only contain digits") := by
    intro hl hd
    have hot : V1.onlyDigits code = false := by
      cases hob : V1.onlyDigits code
      · rfl
      · exact absurd ((onlyDigits_iff code).mp hob) hd
    rcases hl with h | h <;> simp [V1.Barcode, hot, h]
  have hlen : code.length ≠ 12 → code.length ≠ 13 →
      V1.Barcode 2 code e = (e, Except.error "EAN-13 code should have 12 or 13 digits") := by
    intro h12 h13
    simp [V1.Barcode, h12, h13]
  refine ⟨hok, hchar, hlen, ?_, ?_⟩
  · rintro ⟨e2, n, heq⟩
    by_cases hl : code.length = 12 ∨ code.length = 13
    · by_cases hd : ∀ c ∈ code, 48 ≤ c ∧ c ≤ 57
      · exact ⟨hl, hd⟩
      · rw [hchar hl hd] at heq
        simp at heq
    · push_neg at hl
      rw [hlen hl.1 hl.2] at heq
      simp at heq
  · rintro ⟨hl, hd⟩
    exact ⟨_, _, hok hl hd⟩

/-- Witness for C2: the three concrete payloads of the test suite. -/
theorem Barcode_ean13_spec_witness :
    V1.Barcode 2 [49, 50, 51, 52, 53, 54, 55, 56, 57, 48, 49, 50, 56] V1.New =
      ({ V1.New with
          buf := V1.New.buf ++ [gs, 107, 2]
            ++ [49, 50, 51, 52, 53, 54, 55, 56, 57, 48, 49, 50, 56] ++ [0] },
       Except.ok 17) ∧
    V1.Barcode 2 [49, 50, 51, 52, 53, 88, 55, 56, 57, 48, 49, 50, 56] V1.New =
      (V1.New, Except.error "EAN-13 code can only contain digits") ∧
    V1.Barcode 2 [49, 50, 51, 52, 53, 54, 55, 56, 57] V1.New =
      (V1.New, Except.error "EAN-13 code should have 12 or 13 digits") :=
  ⟨(Barcode_ean13_spec [49, 50, 51, 52, 53, 54, 55, 56, 57, 48, 49, 50, 56] V1.New).1
      (Or.inr (by decide)) (by decide),
   (Barcode_ean13_spec [49, 50, 51, 52, 53, 88, 55, 56, 57, 48, 49, 50, 56] V1.New).2.1
      (Or.inr (by decide)) (by decide),
   (Barcode_ean13_spec [49, 50, 51, 52, 53, 54, 55, 56, 57] V1.New).2.2.1
      (by decide) (by decide)⟩

/-- Normal form of QRCode on a payload within the selected ceiling: the five
frames in order, the little-endian length field on the store-data frame, and
the returned count of the store-data write. -/
theorem QRCode_eq (code : List Nat) (model size cl : Nat) (e : Escpos)
    (hlen : code.length ≤ (if model = 49 then 1167 else 7089)) :
    V1.QRCode code model size cl e =
      ({ e with buf := e.buf
          ++ [gs, 40, 107, 4, 0, 49, 65, (if model ≠ 49 ∧ model ≠ 50 then 50 else model), 0]
          ++ [gs, 40, 107, 3, 0, 49, 67, (if size < 1 then 1 else if 16 < size then 16 else size)]
          ++ [gs, 40, 107, 3, 0, 49, 69, (if cl < 48 ∨ 51 < cl then 48 else cl)]
          ++ ([gs, 40, 107, (code.length + 3) % 256, ((code.length + 3) / 256) % 256,
                49, 80, 48] ++ code)
          ++ [gs, 40, 107, 3, 0, 49, 81, 48] },
        Except.ok (code.length + 8)) := by
  unfold V1.QRCode
  rw [if_neg (Nat.not_lt.mpr hlen)]
  simp [WriteRaw_eq, List.append_assoc]

/-- C3: in the QR store-data frame the payload is preceded by a two-byte
little-endian length field holding len(payload)+3, then 49, 80, 48, then the
raw payload; decoding the field as pL + 256*pH recovers len(payload)+3 for
every payload within the model ceiling. -/
theorem QRCode_store_frame_length (code : List Nat) (model size cl : Nat) (e : Escpos)
    (hlen : code.length ≤ (if model = 49 then 1167 else 7089)) :
    V1.QRCode code model size cl e =
      ({ e with buf := e.buf
          ++ [gs, 40, 107, 4, 0, 49, 65, (if model ≠ 49 ∧ model ≠ 50 then 50 else model), 0]
          ++ [gs, 40, 107, 3, 0, 49, 67, (if size < 1 then 1 else if 16 < size then 16 else size)]
          ++ [gs, 40, 107, 3, 0, 49, 69, (if cl < 48 ∨ 51 < cl then 48 else cl)]
          ++ ([gs, 40, 107, (code.length + 3) % 256, ((code.length + 3) / 256) % 256,
                49, 80, 48] ++ code)
          ++ [gs, 40, 107, 3, 0, 49, 81, 48] },
        Except.ok (code.length + 8)) ∧
    (code.length + 3) % 256 + 256 * (((code.length + 3) / 256) % 256) = code.length + 3 := by
  refine ⟨QRCode_eq code model size cl e hlen, ?_⟩
  have hl : code.length ≤ 7089 := by
    by_cases h : model = 49 <;> simp [h] at hlen <;> omega
  omega

/-- Witness for C3 on the two-byte payload 104, 105 with model 2. -/
theorem QRCode_store_frame_length_witness :
    ([104, 105] : List Nat).length ≤ (if (50 : Nat) = 49 then 1167 else 7089) ∧
    (V1.QRCode [104, 105] 50 3 48 V1.New =
      ({ V1.New with buf := V1.New.buf
          ++ [gs, 40, 107, 4, 0, 49, 65, (if (50 : Nat) ≠ 49 ∧ (50 : Nat) ≠ 50 then 50 else 50), 0]
          ++ [gs, 40, 107, 3, 0, 49, 67, (if (3 : Nat) < 1 then 1 else if 16 < 3 then 16 else 3)]
          ++ [gs, 40, 107, 3, 0, 49, 69, (if (48 : Nat) < 48 ∨ 51 < 48 then 48 else 48)]
          ++ ([gs, 40, 107, (([104, 105] : List Nat).length + 3) % 256,
                ((([104, 105] : List Nat).length + 3) / 256) % 256, 49, 80, 48] ++ [104, 105])
          ++ [gs, 40, 107, 3, 0, 49, 81, 48] },
        Except.ok (([104, 105] : List Nat).length + 8)) ∧
    (([104, 105] : List Nat).length + 3) % 256
        + 256 * (((([104, 105] : List Nat).length + 3) / 256) % 256)
      = ([104, 105] : List Nat).length + 3) :=
  ⟨by decide, QRCode_store_frame_length [104, 105] 50 3 48 V1.New (by decide)⟩

/-- C4: two independent defaulting rules.  First, for every model byte that is
neither 49 nor 50 and any correction level, the model-select frame carries
byte 50 and the call succeeds for payloads within the 7089-byte ceiling.
Second, for every correction level outside [48,51] and any model, the
correction-level frame carries byte 48 and the call succeeds for payloads
within the selected model ceiling. -/
theorem QRCode_default_normalization (code : List Nat) (model size cl : Nat) (e : Escpos) :
    (model ≠ 49 → model ≠ 50 → code.length ≤ 7089 →
      V1.QRCode code model size cl e =
        ({ e with buf := e.buf
            ++ [gs, 40, 107, 4, 0, 49, 65, 50, 0]
            ++ [gs, 40, 107, 3, 0, 49, 67,
                  (if size < 1 then 1 else if 16 < size then 16 else size)]
            ++ [gs, 40, 107, 3, 0, 49, 69, (if cl < 48 ∨ 51 < cl then 48 else cl)]
            ++ ([gs, 40, 107, (code.length + 3) % 256, ((code.length + 3) / 256) % 256,
                  49, 80, 48] ++ code)
            ++ [gs, 40, 107, 3, 0, 49, 81, 48] },
          Except.ok (code.length + 8))) ∧
    (cl < 48 ∨ 51 < cl → code.length ≤ (if model = 49 then 1167 else 7089) →
      V1.QRCode code model size cl e =
        ({ e with buf := e.buf
            ++ [gs, 40, 107, 4, 0, 49, 65,
                  (if model ≠ 49 ∧ model ≠ 50 then 50 else model), 0]
            ++ [gs, 40, 107, 3, 0, 49, 67,
                  (if size < 1 then 1 else if 16 < size then 16 else size)]
            ++ [gs, 40, 107, 3, 0, 49, 69, 48]
            ++ ([gs, 40, 107, (code.length + 3) % 256, ((code.length + 3) / 256) % 256,
                  49, 80, 48] ++ code)
            ++ [gs, 40, 107, 3, 0, 49, 81, 48] },
          Except.ok (code.length + 8))) := by
  constructor
  · intro hm1 hm2 hlen
    have h := QRCode_eq code model size cl e (by simp [hm1]; omega)
    rw [h, if_pos ⟨hm1, hm2⟩]
  · intro hcl hlen
    have h := QRCode_eq code model size cl e hlen
    rw [h, if_pos hcl]

/-- Witness for C4: the first conjunct at the spec scenario, model byte 48
(invalid) with the valid correction level M (49); the second at the valid
model 50 with the invalid correction level 0. -/
theorem QRCode_default_normalization_witness :
    ((48 : Nat) ≠ 49 ∧ (48 : Nat) ≠ 50 ∧ ([116] : List Nat).length ≤ 7089 ∧
      V1.QRCode [116] 48 5 49 V1.New =
        ({ V1.New with buf := V1.New.buf
            ++ [gs, 40, 107, 4, 0, 49, 65, 50, 0]
            ++ [gs, 40, 107, 3, 0, 49, 67,
                  (if (5 : Nat) < 1 then 1 else if 16 < 5 then 16 else 5)]
            ++ [gs, 40, 107, 3, 0, 49, 69, (if (49 : Nat) < 48 ∨ 51 < (49 : Nat) then 48 else 49)]
            ++ ([gs, 40, 107, (([116] : List Nat).length + 3) % 256,
                  ((([116] : List Nat).length + 3) / 256) % 256, 49, 80, 48] ++ [116])
            ++ [gs, 40, 107, 3, 0, 49, 81, 48] },
          Except.ok (([116] : List Nat).length + 8))) ∧
    (((0 : Nat) < 48 ∨ 51 < (0 : Nat)) ∧
      ([116] : List Nat).length ≤ (if (50 : Nat) = 49 then 1167 else 7089) ∧
      V1.QRCode [116] 50 5 0 V1.New =
        ({ V1.New with buf := V1.New.buf
            ++ [gs, 40, 107, 4, 0, 49, 65,
                  (if (50 : Nat) ≠ 49 ∧ (50 : Nat) ≠ 50 then 50 else 50), 0]
            ++ [gs, 40, 107, 3, 0, 49, 67,
                  (if (5 : Nat) < 1 then 1 else if 16 < 5 then 16 else 5)]
            ++ [gs, 40, 107, 3, 0, 49, 69, 48]
            ++ ([gs, 40, 107, (([116] : List Nat).length + 3) % 256,
                  ((([116] : List Nat).length + 3) / 256) % 256, 49, 80, 48] ++ [116])
            ++ [gs, 40, 107, 3, 0, 49, 81, 48] },
          Except.ok (([116] : List Nat).length + 8))) :=
  ⟨⟨by decide, by decide, by decide,
    (QRCode_default_normalization [116] 48 5 49 V1.New).1 (by decide) (by decide) (by decide)⟩,
   ⟨Or.inl (by decide), by decide,
    (QRCode_default_normalization [116] 50 5 0 V1.New).2 (Or.inl (by decide)) (by decide)⟩⟩

set_option maxRecDepth 8000 in
/-- C7: on a one-byte response b, PaperStatus reports 0 (no paper) when bits 5
and 6 of b are set, otherwise 1 (low paper) when bits 2 and 3 are set,
otherwise 2 (adequate) — the no-paper check has priority. -/
theorem PaperStatus_bit_priority (b : Nat) (e : Escpos) (hb : b < 256) :
    (V2.PaperStatus (ReadResult.byte b) e).2 =
      ((if Nat.testBit b 5 ∧ Nat.testBit b 6 then 0
        else if Nat.testBit b 2 ∧ Nat.testBit b 3 then 1 else 2), none) := by
  have key : ∀ x < 256, ((x &&& 96 = 96) ↔ (Nat.testBit x 5 ∧ Nat.testBit x 6)) ∧
      ((x &&& 12 = 12) ↔ (Nat.testBit x 2 ∧ Nat.testBit x 3)) := by decide
  obtain ⟨k1, k2⟩ := key b hb
  by_cases h1 : Nat.testBit b 5 ∧ Nat.testBit b 6
  · simp [V2.PaperStatus, QueryStatus, k1.mpr h1, h1]
  · have h1b : ¬(b &&& 96 = 96) := fun hc => h1 (k1.mp hc)
    by_cases h2 : Nat.testBit b 2 ∧ Nat.testBit b 3
    · simp [V2.PaperStatus, QueryStatus, h1b, k2.mpr h2, h1, h2]
    · have h2b : ¬(b &&& 12 = 12) := fun hc => h2 (k2.mp hc)
      simp [V2.PaperStatus, QueryStatus, h1b, h2b, h1, h2]

/-- Witness for C7 at the near-end byte 0x0C (bits 2 and 3 set): low paper. -/
theorem PaperStatus_bit_priority_witness :
    (12 : Nat) < 256 ∧
    (V2.PaperStatus (ReadResult.byte 12) V1.New).2 =
      ((if Nat.testBit 12 5 ∧ Nat.testBit 12 6 then 0
        else if Nat.testBit 12 2 ∧ Nat.testBit 12 3 then 1 else 2), none) :=
  ⟨by decide, PaperStatus_bit_priority 12 V1.New (by decide)⟩

set_option maxHeartbeats 3200000 in
/-- Normal form of the older snapshot Write: one style frame per enabled
feature in the fixed order, then the size frame on the clamped style, then
the text bytes; the clamped width and height are written back to the style
and the call never fails. -/
theorem Write_eq (data : List Nat) (e : Escpos) :
    V1.Write data e =
      ({ e with
          buf := e.buf
            ++ (if e.config.DisableBold then [] else [esc, 69, boolToByte e.Style.Bold])
            ++ (if e.config.DisableUnderline then [] else [esc, 45, e.Style.Underline])
            ++ (if e.config.DisableReverse then [] else [gs, 66, boolToByte e.Style.Reverse])
            ++ (if e.config.DisableRotate then [] else [esc, 86, boolToByte e.Style.Rotate])
            ++ (if e.config.DisableUpsideDown then []
                else [esc, 123, boolToByte e.Style.UpsideDown])
            ++ (if e.config.DisableJustify then [] else [esc, 97, e.Style.Justify])
            ++ [gs, 33, (2 <<< 3) * (max 1 (min 8 e.Style.Width) - 1)
                  + (max 1 (min 8 e.Style.Height) - 1)]
            ++ data,
          Style := { e.Style with Width := max 1 (min 8 e.Style.Width),
                                  Height := max 1 (min 8 e.Style.Height) } },
       Except.ok data.length) := by
  obtain ⟨buf, st, cfg⟩ := e
  obtain ⟨du, db, dr, dro, dud, dj⟩ := cfg
  cases du <;> cases db <;> cases dr <;> cases dro <;> cases dud <;> cases dj <;>
    simp [V1.Write, V1.SetSize, WriteRaw_eq, clamp18_eq, clamp18_eq0, List.append_assoc]

/-- C10: Write never fails because of the feature-disable configuration; a
disabled feature's style frame is silently omitted, and before the text bytes
exactly one style frame is queued per enabled feature in the fixed order
bold, underline, reverse, rotate, upside-down, justify, then the size frame,
then the text bytes. -/
theorem Write_never_fails_and_frames (data : List Nat) (e : Escpos) :
    V1.Write data e =
      ({ e with
          buf := e.buf
            ++ (if e.config.DisableBold then [] else [esc, 69, boolToByte e.Style.Bold])
            ++ (if e.config.DisableUnderline then [] else [esc, 45, e.Style.Underline])
            ++ (if e.config.DisableReverse then [] else [gs, 66, boolToByte e.Style.Reverse])
            ++ (if e.config.DisableRotate then [] else [esc, 86, boolToByte e.Style.Rotate])
            ++ (if e.config.DisableUpsideDown then []
                else [esc, 123, boolToByte e.Style.UpsideDown])
            ++ (if e.config.DisableJustify then [] else [esc, 97, e.Style.Justify])
            ++ [gs, 33, (2 <<< 3) * (max 1 (min 8 e.Style.Width) - 1)
                  + (max 1 (min 8 e.Style.Height) - 1)]
            ++ data,
          Style := { e.Style with Width := max 1 (min 8 e.Style.Width),
                                  Height := max 1 (min 8 e.Style.Height) } },
       Except.ok data.length) :=
  Write_eq data e

/-- Barcode leaves the style untouched. -/
theorem Barcode_fst_style (t : Nat) (c : List Nat) (e : Escpos) :
    (V1.Barcode t c e).1.Style = e.Style := by
  simp only [V1.Barcode, WriteRaw_eq]
  split_ifs <;> rfl

/-- QRCode leaves the style untouched. -/
theorem QRCode_fst_style (c : List Nat) (m s cl : Nat) (e : Escpos) :
    (V1.QRCode c m s cl e).1.Style = e.Style := by
  simp only [V1.QRCode, WriteRaw_eq]
  split_ifs <;> rfl

/-- Every operation preserves the size-field invariant. -/
theorem applyOp_preserves_sizeInv (op : Op) (e : Escpos) (h : sizeInv e) :
    sizeInv (applyOp op e) := by
  obtain ⟨h1, h2, h3, h4⟩ := h
  cases op <;>
    simp_all [applyOp, sizeInv, V1.Bold, V1.Underline, V1.Reverse, V1.Justify, V1.Rotate,
      V1.UpsideDown, V1.Size, V1.SetSize, V1.DefaultStyle, V1.SetAlign, V1.SetFont,
      V1.SetBold, V1.Cut, V1.LineFeedN, WriteRaw_eq, Write_eq, Barcode_fst_style,
      QRCode_fst_style, clamp18_eq, clamp18_eq0]

/-- C9: starting from New (which applies DefaultStyle), after any sequence of
operations the style width and height are always in [1,8]; and every
operation other than Size, SetSize and DefaultStyle leaves both fields
unchanged. -/
theorem size_fields_invariant :
    (∀ l : List Op, sizeInv (applyOps l V1.New)) ∧
    (∀ (op : Op) (e : Escpos), sizeInv e → touchesSize op = false →
      (applyOp op e).Style.Width = e.Style.Width ∧
      (applyOp op e).Style.Height = e.Style.Height) := by
  constructor
  · have step : ∀ (l : List Op) (e : Escpos), sizeInv e → sizeInv (applyOps l e) := by
      intro l
      induction l with
      | nil => intro e he; simpa [applyOps] using he
      | cons op t ih =>
        intro e he
        have h2 : applyOps (op :: t) e = applyOps t (applyOp op e) := by
          simp [applyOps]
        rw [h2]
        exact ih (applyOp op e) (applyOp_preserves_sizeInv op e he)
    intro l
    exact step l V1.New (by decide)
  · intro op e he hts
    obtain ⟨h1, h2, h3, h4⟩ := he
    cases op <;>
      simp_all [touchesSize, applyOp, V1.Bold, V1.Underline, V1.Reverse, V1.Justify,
        V1.Rotate, V1.UpsideDown, V1.DefaultStyle, V1.SetAlign, V1.SetFont, V1.SetBold,
        V1.Cut, V1.LineFeedN, WriteRaw_eq, Write_eq, Barcode_fst_style, QRCode_fst_style]

/-- Witness for C9: the invariant holds on a fresh session, and a bold toggle
leaves the size fields unchanged. -/
theorem size_fields_invariant_witness :
    sizeInv V1.New ∧ touchesSize (Op.bold true) = false ∧
    ((applyOp (Op.bold true) V1.New).Style.Width = V1.New.Style.Width ∧
     (applyOp (Op.bold true) V1.New).Style.Height = V1.New.Style.Height) :=
  ⟨by decide, rfl, size_fields_invariant.2 (Op.bold true) V1.New (by decide) rfl⟩

/-- The older snapshot of PaperStatus disagrees with TestPaperStatus of
main_test.go: on the near-end byte 0x0C it reports 0 where the test expects
1, and on byte 0x00 it reports 0 where the test expects 2; the later
snapshot agrees with the test on both bytes. -/
theorem PaperStatus_snapshots_disagree :
    (V1.PaperStatus (ReadResult.byte 12) V1.New).2 = (0, none) ∧
    (V1.PaperStatus (ReadResult.byte 0) V1.New).2 = (0, none) ∧
    (V2.PaperStatus (ReadResult.byte 12) V1.New).2 = (1, none) ∧
    (V2.PaperStatus (ReadResult.byte 0) V1.New).2 = (2, none) := by
  refine ⟨by decide, by decide, by decide, by decide⟩
